import Mathlib

/-!
Shallow embedding of the visible bridge logic of the repository
`temporal-community/aws-reinvent-25-demo`:

* `new-ui/backend/main.py` — FastAPI handlers wrapping a Temporal client
  (connection memoization, start/status/answer/result/stream/health endpoints);
* `openai_agents/run_worker.py` — worker bootstrap (registration lists).

The interactive research workflow itself
(`openai_agents/workflows/interactive_research_workflow.py`) is imported by
`main.py` but its implementation is not among the given source files; the
parts of its behaviour that claims depend on are modelled from the
specification and marked as such in their doc comments.
-/

namespace Demo

/-- Python's `str.strip()` with no argument: removes leading and trailing
whitespace characters. Modelled on the string's character list so that it
evaluates by kernel reduction. -/
def strip (s : String) : String :=
  String.mk (((s.data.dropWhile Char.isWhitespace).reverse.dropWhile
    Char.isWhitespace).reverse)

/-- An HTTP error as raised by the handlers (`fastapi.HTTPException`):
a status code and a detail string. -/
structure HTTPError where
  status_code : Nat
  detail : String
deriving DecidableEq, Repr

/-- Environment-sourced configuration of `main.py` (lines 34-38):
`TEMPORAL_ENDPOINT` has no default (may be absent), the others default as in
the source; `CONNECT_CLOUD` defaults to "N". -/
structure Config where
  TEMPORAL_ENDPOINT : Option String
  TEMPORAL_NAMESPACE : String
  TEMPORAL_TASK_QUEUE : String
  TEMPORAL_API_KEY : Option String
  CONNECT_CLOUD : String
deriving DecidableEq, Repr

/-- The arguments with which `Client.connect` is invoked in
`get_temporal_client` (`main.py` lines 87-99): target host, namespace
argument (absent in the local branch), api key, and the tls flag
(passed `True` in the cloud branch, left at its `False` default locally). -/
structure Client where
  target : Option String
  namespace_arg : Option String
  api_key : Option String
  tls : Bool
deriving DecidableEq, Repr

/-- The connection established on the first, connecting call of
`get_temporal_client` (`main.py` lines 87-99): cloud parameters when
`CONNECT_CLOUD == 'Y'`, otherwise the fixed local loopback endpoint. -/
def connect_client (cfg : Config) : Client :=
  if cfg.CONNECT_CLOUD = "Y" then
    { target := cfg.TEMPORAL_ENDPOINT
      namespace_arg := some cfg.TEMPORAL_NAMESPACE
      api_key := cfg.TEMPORAL_API_KEY
      tls := true }
  else
    { target := some "localhost:7233"
      namespace_arg := none
      api_key := none
      tls := false }

/-- `get_temporal_client` (`main.py` lines 82-100), with the module-global
`temporal_client` made explicit state: if a client is already memoized it is
returned unchanged, otherwise a connection is established according to the
configuration and memoized. -/
def get_temporal_client (cfg : Config) (temporal_client : Option Client) :
    Client × Option Client :=
  match temporal_client with
  | some c => (c, some c)
  | none =>
      let c := connect_client cfg
      (c, some c)

/-- The status object returned by the workflow query
`InteractiveResearchWorkflow.get_status`, as consumed by `main.py`
(lines 202-243): phase string, original query, engine-reported current
question, current question index, optional question list and optional
responses map (an association list here). The class itself lives in
`openai_agents/workflows/interactive_research_workflow.py`, which is not
among the given source files; the fields are exactly those `main.py` reads. -/
structure EngineStatus where
  status : String
  original_query : Option String
  current_question : Option String
  current_question_index : Nat
  clarification_questions : Option (List String)
  clarification_responses : Option (List (String × String))
deriving DecidableEq, Repr

/-- Modelled from the spec: `get_current_question` is a method of the status
object defined in `openai_agents/workflows/interactive_research_workflow.py`,
which is not among the given source files. Per spec §4.3 the projection
"re-derives `current_question` text from the question list and index". -/
def EngineStatus.get_current_question (s : EngineStatus) : Option String :=
  (s.clarification_questions.getD []).get? s.current_question_index

/-- Modelled from the spec: the invariant the workflow (not among the given
source files) maintains on its status object, per spec §3 ("`current_question`
is present if and only if phase = awaiting_clarifications") and §8 (while
awaiting clarifications the index points at an existing question; when the
last question is answered the phase leaves `awaiting_clarifications`). -/
def engine_invariant (s : EngineStatus) : Prop :=
  (s.status = "awaiting_clarifications" →
    s.current_question_index < (s.clarification_questions.getD []).length) ∧
  (s.status ≠ "awaiting_clarifications" → s.current_question = none)

/-- The JSON document built by `get_status` (`main.py` lines 188-217). -/
structure StatusResponse where
  workflow_id : String
  status : String
  original_query : Option String
  current_question : Option String
  current_question_index : Nat
  total_questions : Nat
  clarification_responses : List (String × String)
deriving DecidableEq, Repr

/-- `get_status` (`main.py` lines 188-217) as a function of the workflow id
and the engine-reported status: builds the response dict, then overwrites
`current_question` with the re-derived `get_current_question()` when the
phase is `awaiting_clarifications`. `or []` / `or {}` coincide with `getD`
here since an empty list/dict is replaced by an empty list/dict. -/
def get_status (workflow_id : String) (s : EngineStatus) : StatusResponse :=
  let response : StatusResponse :=
    { workflow_id := workflow_id
      status := s.status
      original_query := s.original_query
      current_question := s.current_question
      current_question_index := s.current_question_index
      total_questions := (s.clarification_questions.getD []).length
      clarification_responses := s.clarification_responses.getD [] }
  if s.status = "awaiting_clarifications" then
    { response with current_question := s.get_current_question }
  else
    response

/-- The JSON document built by `submit_answer` (`main.py` lines 240-244). -/
structure AnswerResponse where
  status : String
  workflow_status : String
  questions_remaining : Int
deriving DecidableEq, Repr

/-- `submit_answer` (`main.py` lines 220-244) as a function of the
engine-reported status queried after the update was processed: the answer is
reported accepted and the remaining count is `len(questions or []) - index`
as a plain integer subtraction. -/
def submit_answer (s : EngineStatus) : AnswerResponse :=
  { status := "accepted"
    workflow_status := s.status
    questions_remaining :=
      ((s.clarification_questions.getD []).length : Int) - s.current_question_index }

/-- The JSON document returned by `start_research` (`main.py` lines 182-185). -/
structure StartResponse where
  workflow_id : String
  status : String
deriving DecidableEq, Repr

/-- The observable effect of `start_research`: the query text sent into the
workflow as the initial update, and the JSON response. -/
structure StartEffect where
  sent_query : String
  response : StartResponse
deriving DecidableEq, Repr

/-- `start_research` (`main.py` lines 158-185) as a function of the random
id suffix (`uuid.uuid4().hex[:8]`) and the request query: the handler body
contains no validation and no raise, sends `request.query.strip()` as the
initial update, and returns the two-key response. -/
def start_research (suffix : String) (query : String) :
    Except HTTPError StartEffect :=
  Except.ok
    { sent_query := strip query
      response :=
        { workflow_id := "interactive-research-" ++ suffix
          status := "started" } }

/-- The terminal payload `InteractiveResearchResult` as used by `main.py`. -/
structure ResearchResult where
  markdown_report : String
  short_summary : String
  follow_up_questions : List String
deriving DecidableEq, Repr

/-- `get_result` (`main.py` lines 252-280) as a function of the execution
status name reported by `handle.describe()` and of the terminal payload that
`handle.result()` would deliver: if the status name is not `COMPLETED` the
handler raises 400 "Research not complete yet" before any result fetch,
otherwise it returns the payload. -/
def get_result (desc_status_name : String) (result : ResearchResult) :
    Except HTTPError ResearchResult :=
  if desc_status_name ≠ "COMPLETED" then
    Except.error { status_code := 400, detail := "Research not complete yet" }
  else
    Except.ok result

/-- `stream_status` (`main.py` lines 283-324): the whole streaming body is
commented out and the handler unconditionally raises 501. -/
def stream_status (workflow_id : String) : Except HTTPError Unit :=
  Except.error
    { status_code := 501
      detail := "Temporal integration not configured. See backend/main.py for setup instructions." }

/-- The JSON document returned by `health_check` (`main.py` lines 327-336). -/
structure HealthResponse where
  status : String
  temporal_endpoint : Option String
  temporal_namespace : String
  task_queue : String
  cloud_connection : Bool
deriving DecidableEq, Repr

/-- `health_check` (`main.py` lines 327-336): a pure echo of the static
configuration, no engine call and no failure path. -/
def health_check (cfg : Config) : HealthResponse :=
  { status := "healthy"
    temporal_endpoint := cfg.TEMPORAL_ENDPOINT
    temporal_namespace := cfg.TEMPORAL_NAMESPACE
    task_queue := cfg.TEMPORAL_TASK_QUEUE
    cloud_connection := cfg.CONNECT_CLOUD == "Y" }

/-- The workflow types registered by the worker (`run_worker.py` line 79). -/
inductive WorkflowType where
  | InteractiveResearchWorkflow
deriving DecidableEq, Repr

/-- The activity callables registered by the worker
(`run_worker.py` lines 82-86). -/
inductive ActivityType where
  | generate_pdf
  | generate_image
  | process_clarification
deriving DecidableEq, Repr

/-- The registration data handed to the `Worker` constructor. -/
structure WorkerRegistration where
  task_queue : String
  workflows : List WorkflowType
  activities : List ActivityType
deriving DecidableEq, Repr

/-- The worker built by `main` in `run_worker.py` (lines 76-87): one task
queue, one workflow type, three activity callables. -/
def research_worker : WorkerRegistration :=
  { task_queue := "research-queue"
    workflows := [WorkflowType.InteractiveResearchWorkflow]
    activities :=
      [ActivityType.generate_pdf, ActivityType.generate_image,
        ActivityType.process_clarification] }

/-- The sequence of steps `main` in `run_worker.py` performs (lines 31-88):
connect to the engine, construct the worker registration, then enter the
blocking run loop, which is the final step. -/
inductive WorkerStep where
  | connect
  | create_worker
  | run_loop
deriving DecidableEq, Repr

/-- The ordered steps of `main` in `run_worker.py`: `await worker.run()` is
the last statement of the function. -/
def worker_main_steps : List WorkerStep :=
  [WorkerStep.connect, WorkerStep.create_worker, WorkerStep.run_loop]

/-- C1: for every status document returned by `GET /api/status/{id}` over an
engine status satisfying the workflow's invariant, the `current_question`
field is non-null if and only if the phase is `awaiting_clarifications`; in
every other phase it is null. -/
theorem get_status_current_question_iff_awaiting (wid : String)
    (s : EngineStatus) (h : engine_invariant s) :
    (get_status wid s).current_question ≠ none ↔
      s.status = "awaiting_clarifications" := by
  by_cases hs : s.status = "awaiting_clarifications"
  · have hlen := h.1 hs
    simp [get_status, hs, EngineStatus.get_current_question,
      List.getElem?_eq_getElem hlen]
  · have hq := h.2 hs
    simp [get_status, hs, hq]

/-- C1 witness: a concrete awaiting-clarifications engine status satisfying
the invariant, at which the theorem applies. -/
theorem get_status_current_question_iff_awaiting_witness :
    engine_invariant { status := "awaiting_clarifications", original_query := some "q", current_question := some "Q0", current_question_index := 0, clarification_questions := some ["Q0", "Q1"], clarification_responses := none } ∧
    ((get_status "w" { status := "awaiting_clarifications", original_query := some "q", current_question := some "Q0", current_question_index := 0, clarification_questions := some ["Q0", "Q1"], clarification_responses := none }).current_question ≠ none ↔
      ("awaiting_clarifications" : String) = "awaiting_clarifications") :=
  ⟨⟨fun _ => by decide, fun hne => absurd rfl hne⟩,
    get_status_current_question_iff_awaiting "w" _
      ⟨fun _ => by decide, fun hne => absurd rfl hne⟩⟩

/-- C2: the `questions_remaining` field of a successful
`POST /api/answer/{id}/{index}` equals the total question count minus the
current question index as the status query reports them after the update,
and there are engine statuses at which this value is negative. -/
theorem submit_answer_questions_remaining (wid : String) (s : EngineStatus) :
    (submit_answer s).questions_remaining =
      ((get_status wid s).total_questions : Int) -
        ((get_status wid s).current_question_index : Int) ∧
    ∃ s2 : EngineStatus, (submit_answer s2).questions_remaining < 0 := by
  constructor
  · unfold submit_answer get_status
    split <;> rfl
  · exact ⟨{ status := "researching", original_query := none, current_question := none, current_question_index := 2, clarification_questions := some ["q"], clarification_responses := none }, by decide⟩

/-- C3: `POST /api/start-research` performs no emptiness validation: for a
query that strips to the empty string the handler raises no error, sends the
stripped (empty) query into the workflow, and returns status "started". -/
theorem start_research_accepts_empty_query (suffix query : String)
    (h : strip query = "") :
    start_research suffix query =
      Except.ok
        { sent_query := ""
          response :=
            { workflow_id := "interactive-research-" ++ suffix
              status := "started" } } := by
  simp [start_research, h]

/-- C3 witness: the whitespace-only query "  " strips to the empty string and
is accepted with status "started". -/
theorem start_research_accepts_empty_query_witness :
    strip "  " = "" ∧
    start_research "deadbeef" "  " =
      Except.ok
        { sent_query := ""
          response :=
            { workflow_id := "interactive-research-" ++ "deadbeef"
              status := "started" } } :=
  ⟨by decide, start_research_accepts_empty_query "deadbeef" "  " (by decide)⟩

/-- C4: whenever the described execution status is not `COMPLETED`,
`GET /api/result/{id}` fails with a 400 error with detail "Research not
complete yet", and the outcome does not depend on the terminal payload the
engine would deliver (no partial result is ever returned). -/
theorem get_result_not_completed (name : String) (r r2 : ResearchResult)
    (h : name ≠ "COMPLETED") :
    get_result name r =
      Except.error { status_code := 400, detail := "Research not complete yet" } ∧
    get_result name r = get_result name r2 := by
  simp [get_result, h]

/-- C4 witness: a running execution is refused identically for two distinct
payloads. -/
theorem get_result_not_completed_witness :
    ("RUNNING" : String) ≠ "COMPLETED" ∧
    (get_result "RUNNING" { markdown_report := "", short_summary := "", follow_up_questions := [] } =
      Except.error { status_code := 400, detail := "Research not complete yet" } ∧
    get_result "RUNNING" { markdown_report := "", short_summary := "", follow_up_questions := [] } =
      get_result "RUNNING" { markdown_report := "a", short_summary := "b", follow_up_questions := ["c"] }) :=
  ⟨by decide, get_result_not_completed "RUNNING" _ _ (by decide)⟩

/-- C5: the connection accessor is idempotent and memoized: with a memoized
client it returns that same client unchanged under any configuration; on the
first call it connects according to the configuration and memoizes the
result; a second call under a possibly different configuration returns the
first call's client, so the mode is chosen only on the first, connecting
call; cloud mode takes endpoint/namespace/api-key/TLS from configuration and
local mode uses the fixed loopback endpoint without TLS. -/
theorem get_temporal_client_memoized (cfg cfg2 : Config) (c : Client) :
    get_temporal_client cfg2 (some c) = (c, some c) ∧
    get_temporal_client cfg none =
      (connect_client cfg, some (connect_client cfg)) ∧
    get_temporal_client cfg2 (get_temporal_client cfg none).2 =
      get_temporal_client cfg none ∧
    connect_client { cfg with CONNECT_CLOUD := "Y" } =
      { target := cfg.TEMPORAL_ENDPOINT
        namespace_arg := some cfg.TEMPORAL_NAMESPACE
        api_key := cfg.TEMPORAL_API_KEY
        tls := true } ∧
    connect_client { cfg with CONNECT_CLOUD := "N" } =
      { target := some "localhost:7233", namespace_arg := none,
        api_key := none, tls := false } := by
  refine ⟨rfl, rfl, rfl, ?_, ?_⟩ <;> simp [connect_client]

/-- C6: every `POST /api/start-research` strips surrounding whitespace from
the query before sending it as the initial update, uses a workflow id made of
the fixed prefix "interactive-research-" plus the random suffix, and responds
with exactly the two keys `workflow_id` and `status`, the latter "started". -/
theorem start_research_shape (suffix query : String) :
    ∃ eff : StartEffect,
      start_research suffix query = Except.ok eff ∧
      eff.sent_query = strip query ∧
      eff.response =
        { workflow_id := "interactive-research-" ++ suffix
          status := "started" } :=
  ⟨_, rfl, rfl, rfl⟩

/-- C7: `GET /api/stream/{id}` always fails with a 501 error, for every
workflow id, and never produces a stream. -/
theorem stream_status_always_501 (wid : String) :
    stream_status wid =
      Except.error
        { status_code := 501
          detail := "Temporal integration not configured. See backend/main.py for setup instructions." } :=
  rfl

/-- C8: `GET /api/health` always succeeds and returns exactly the keys
`status`, `temporal_endpoint`, `temporal_namespace`, `task_queue` and
`cloud_connection`, all computed from the static configuration alone; as a
total function of the configuration it is independent of engine connectivity
and workflow state. -/
theorem health_check_static_echo (cfg : Config) :
    health_check cfg =
      { status := "healthy"
        temporal_endpoint := cfg.TEMPORAL_ENDPOINT
        temporal_namespace := cfg.TEMPORAL_NAMESPACE
        task_queue := cfg.TEMPORAL_TASK_QUEUE
        cloud_connection := cfg.CONNECT_CLOUD == "Y" } :=
  rfl

/-- C9: the worker bootstrap registers exactly one workflow type and exactly
three distinct activity callables on the single task queue "research-queue",
and the blocking run loop is the final step of `main`. -/
theorem worker_registration_counts :
    research_worker.workflows.length = 1 ∧
    research_worker.activities.length = 3 ∧
    research_worker.activities.Nodup ∧
    research_worker.task_queue = "research-queue" ∧
    worker_main_steps.getLast? = some WorkerStep.run_loop := by
  refine ⟨rfl, rfl, by decide, by decide, rfl⟩

/-- C10: when the engine reports the question list and the responses map as
absent, the handlers normalize them: the status document carries
`total_questions = 0` and an empty (non-null) responses map, and the answer
endpoint computes `questions_remaining` as zero minus the current index. -/
theorem none_fields_normalized (wid : String) (s : EngineStatus)
    (hq : s.clarification_questions = none)
    (hr : s.clarification_responses = none) :
    (get_status wid s).total_questions = 0 ∧
    (get_status wid s).clarification_responses = [] ∧
    (submit_answer s).questions_remaining =
      -(s.current_question_index : Int) := by
  unfold get_status submit_answer
  split <;> simp [hq, hr]

/-- C10 witness: a concrete engine status with absent question list and
responses map. -/
theorem none_fields_normalized_witness :
    (get_status "w" { status := "researching", original_query := some "q", current_question := none, current_question_index := 2, clarification_questions := none, clarification_responses := none }).total_questions = 0 ∧
    (get_status "w" { status := "researching", original_query := some "q", current_question := none, current_question_index := 2, clarification_questions := none, clarification_responses := none }).clarification_responses = [] ∧
    (submit_answer { status := "researching", original_query := some "q", current_question := none, current_question_index := 2, clarification_questions := none, clarification_responses := none }).questions_remaining = -(2 : Int) :=
  none_fields_normalized "w" _ rfl rfl

end Demo
